import Mathlib

/-!
Verification of the warp-server authorization/session core.

Shallow embedding of:
  * `src/controllers/function.ts` (UserController: find, get, create, update,
    destroy, logIn, me, logOut),
  * `src/routes/classes.js` (generic class routes: find, first, create,
    update, destroy),
  * the response boundary (`Response.error`),
together with collaborators that the repository uses but whose sources are
not available (model classes, `Defaults` constants, `api.authenticate`,
session class key names, numeric error codes); those are modelled from the
specification and marked `Modelled from the spec:` in their doc comments.
-/

set_option maxHeartbeats 1000000

/-- Modelled from the spec: the numeric values of the `Error.Code` constants
live in `src/utils/error.ts`, which is not under `src/`; the spec (section 7)
only requires the five taxonomy kinds to be distinct codes.  The values below
are representative distinct numbers; no theorem depends on the particular
values, only on their distinctness.  The spelling `ForbdiddenOperation`
follows the source constant name used throughout `function.ts`. -/
def WError.Code.InternalServerError : Nat := 100

def WError.Code.InvalidCredentials : Nat := 101

def WError.Code.InvalidSessionToken : Nat := 102

def WError.Code.ForbdiddenOperation : Nat := 103

def WError.Code.ValidationError : Nat := 104

def WError.Code.DatabaseError : Nat := 105

/-- An error thrown by a controller: `new Error(code, message)`. -/
structure WError where
  code : Nat
  message : String
deriving Repr, DecidableEq

/-- A pointer: the `{className, id}` foreign reference produced by
`user.toPointer().toJSON()`. -/
structure Pointer where
  className : String
  id : Nat
deriving Repr, DecidableEq

/-- A value stored under a key of a model: a string, a number, or the JSON
form of a pointer. -/
inductive Value where
  | str : String → Value
  | num : Int → Value
  | ptrJson : Pointer → Value
deriving Repr, DecidableEq

/-- Per-request metadata: master privilege and the client/origin identifier
(`metadata.isMaster`, `metadata.client`). -/
structure Metadata where
  isMaster : Bool
  client : String
deriving Repr, DecidableEq

/-- A user record as seen by the authentication path: id, username, email and
stored password. -/
structure UserRec where
  id : Nat
  username : String
  email : String
  password : String
deriving Repr, DecidableEq

/-- `user.toPointer()`: the class-name/id reference of a user record. -/
def UserRec.toPointer (u : UserRec) : Pointer :=
  { className := "user", id := u.id }

/-!  ### C7: `UserController.me`  -/

/-- Embedding of `UserController.me` (`src/controllers/function.ts`):
if `currentUser` is undefined it throws `InvalidSessionToken`
with message `Session does not exist`; otherwise it returns the current
user unchanged. -/
def UserController.me (currentUser : Option UserRec) : Except WError UserRec :=
  match currentUser with
  | none => Except.error ⟨WError.Code.InvalidSessionToken, "Session does not exist"⟩
  | some u => Except.ok u

/-- Claim C7: `me` with no resolved current user fails with
`InvalidSessionToken`; with one, it returns exactly that identity,
unmodified. -/
theorem me_resolves_current_user :
    UserController.me none =
      Except.error ⟨WError.Code.InvalidSessionToken, "Session does not exist"⟩
    ∧ ∀ u : UserRec, UserController.me (some u) = Except.ok u := by
  refine ⟨rfl, fun u => rfl⟩

/-!  ### C10: `UserController.get`  -/

/-- The query prepared by `UserController.get`:
`{ select: select || [], include: include || [], id }`. -/
structure GetQuery where
  select : List String
  includeRels : List String
  id : Nat
deriving Repr, DecidableEq

/-- Embedding of `UserController.get` (`src/controllers/function.ts`):
prepares the query with defaulted `select`/`include`, asks the model class
(`getById`, abstracted as the function argument `getById`) for the record,
throws `ForbdiddenOperation` with a message naming the id when the record is
undefined, and otherwise returns the record unchanged. -/
def UserController.get (getById : GetQuery → Option UserRec)
    (id : Nat) (select includeRels : Option (List String)) :
    Except WError UserRec :=
  let query : GetQuery :=
    { select := select.getD [], includeRels := includeRels.getD [], id := id }
  match getById query with
  | none =>
      Except.error ⟨WError.Code.ForbdiddenOperation,
        "User with id `" ++ toString id ++ "` not found"⟩
  | some model => Except.ok model

/-- Claim C10: when the accessor returns no record for the given id, `get`
fails with an error whose code is the `ForbdiddenOperation` code (there is no
distinct not-found code) and whose message names the missing id; a found
record is returned unchanged. -/
theorem get_missing_user_is_forbidden
    (getById : GetQuery → Option UserRec) (id : Nat)
    (select includeRels : Option (List String)) :
    (getById ⟨select.getD [], includeRels.getD [], id⟩ = none →
      UserController.get getById id select includeRels =
        Except.error ⟨WError.Code.ForbdiddenOperation,
          "User with id `" ++ toString id ++ "` not found"⟩)
    ∧ ∀ u : UserRec,
        getById ⟨select.getD [], includeRels.getD [], id⟩ = some u →
        UserController.get getById id select includeRels = Except.ok u := by
  constructor
  · intro h
    simp [UserController.get, h]
  · intro u h
    simp [UserController.get, h]

/-- Witness for C10 at a concrete accessor: an empty store misses id 7 and
produces the forbidden-operation error; a store holding user 7 returns it. -/
theorem get_missing_user_is_forbidden_witness :
    UserController.get (fun _ => none) 7 none none =
      Except.error ⟨WError.Code.ForbdiddenOperation, "User with id `7` not found"⟩
    ∧ UserController.get (fun q => if q.id = 7 then some ⟨7, "a", "a@x", "pw"⟩ else none)
        7 none none = Except.ok ⟨7, "a", "a@x", "pw"⟩ := by
  constructor
  · exact (get_missing_user_is_forbidden (fun _ => none) 7 none none).1 rfl
  · exact (get_missing_user_is_forbidden
      (fun q => if q.id = 7 then some ⟨7, "a", "a@x", "pw"⟩ else none) 7 none none).2
      ⟨7, "a", "a@x", "pw"⟩ rfl

/-!  ### C9: the response boundary (`Response.error`)  -/

/-- The error object reaching `Response.error`: its `status` and `code` may be
undefined (the routes also funnel foreign exceptions through here). -/
structure BoundaryErr where
  status : Option Nat
  code : Option Nat
  message : String
deriving Repr, DecidableEq

/-- The JSON body and HTTP status produced by `Response.error`. -/
structure ErrResponse where
  status : Nat
  code : Nat
  message : String
deriving Repr, DecidableEq

/-- JavaScript `x || d` on numbers: `0` (and absence) is falsy. -/
def jsOrNat (v : Option Nat) (d : Nat) : Nat :=
  match v with
  | none => d
  | some x => if x = 0 then d else x

/-- Embedding of `Response.error` (default, non-custom branch): takes the
error's status, code and message; if the code is undefined it becomes `400`;
else if the code equals `Error.Code.DatabaseError` the message is replaced by
`Invalid query request`; the response status is `err.status || 400`. -/
def Response.error (err : BoundaryErr) : ErrResponse :=
  let code : Nat :=
    match err.code with
    | none => 400
    | some c => c
  let message : String :=
    if err.code = some WError.Code.DatabaseError then "Invalid query request"
    else err.message
  { status := jsOrNat err.status 400, code := code, message := message }

/-- Claim C9: at the response boundary, an error whose code equals
`DatabaseError` has its message normalized to `Invalid query request` while
its code is propagated unmodified; an error of any other kind has its message
passed through unchanged. -/
theorem response_error_normalizes_database_error (err : BoundaryErr) :
    (err.code = some WError.Code.DatabaseError →
      (Response.error err).message = "Invalid query request"
      ∧ (Response.error err).code = WError.Code.DatabaseError)
    ∧ (err.code ≠ some WError.Code.DatabaseError →
      (Response.error err).message = err.message) := by
  constructor
  · intro h
    simp [Response.error, h]
  · intro h
    simp [Response.error, h]

/-- Witness for C9: a database error with message `secret` is masked, and a
forbidden-operation error keeps its message. -/
theorem response_error_normalizes_database_error_witness :
    (Response.error ⟨some 400, some WError.Code.DatabaseError, "secret"⟩).message
        = "Invalid query request"
    ∧ (Response.error ⟨some 400, some WError.Code.DatabaseError, "secret"⟩).code
        = WError.Code.DatabaseError
    ∧ (Response.error ⟨some 403, some WError.Code.ForbdiddenOperation, "nope"⟩).message
        = "nope" := by
  refine ⟨?_, ?_, ?_⟩
  · exact ((response_error_normalizes_database_error
      ⟨some 400, some WError.Code.DatabaseError, "secret"⟩).1 rfl).1
  · exact ((response_error_normalizes_database_error
      ⟨some 400, some WError.Code.DatabaseError, "secret"⟩).1 rfl).2
  · exact (response_error_normalizes_database_error
      ⟨some 403, some WError.Code.ForbdiddenOperation, "nope"⟩).2 (by decide)

/-!  ### Events: accessor and authentication steps observed during a request -/

/-- The observable steps a controller operation performs, in order: evaluating
the authorization guard, issuing a save or destroy to the model accessor, and
running the authentication lookup.  An operation's trace records exactly the
steps it issued. -/
inductive Ev where
  | authEval : Bool → Ev
  | accessorSave : Ev
  | accessorDestroy : Ev
  | authenticateEv : Ev
deriving Repr, DecidableEq

/-!  ### C3: owner-or-master guard on `UserController.update` / `destroy`  -/

/-- The guard condition of `update`/`destroy` in `function.ts`:
`!metadata.isMaster && (typeof currentUser === 'undefined' || currentUser.id !== id)`. -/
def ownerGuardDenies (metadata : Metadata) (currentUser : Option UserRec) (id : Nat) : Bool :=
  !metadata.isMaster &&
    (match currentUser with
     | none => true
     | some u => u.id != id)

/-- Embedding of `UserController.update` (`src/controllers/function.ts`):
throws `ForbdiddenOperation` when the owner-or-master guard denies, before
any save; otherwise builds the model from the keys and saves it.  The second
component is the trace of accessor steps issued. -/
def UserController.update (metadata : Metadata) (currentUser : Option UserRec)
    (keys : List (String × Value)) (id : Nat) :
    Except WError (List (String × Value)) × List Ev :=
  if ownerGuardDenies metadata currentUser id then
    (Except.error ⟨WError.Code.ForbdiddenOperation,
      "User details can only be edited by their owner or via master"⟩, [])
  else
    (Except.ok keys, [Ev.accessorSave])

/-- Embedding of `UserController.destroy` (`src/controllers/function.ts`):
throws `ForbdiddenOperation` when the owner-or-master guard denies, before
any destroy; otherwise destroys the model. -/
def UserController.destroy (metadata : Metadata) (currentUser : Option UserRec)
    (id : Nat) : Except WError Unit × List Ev :=
  if ownerGuardDenies metadata currentUser id then
    (Except.error ⟨WError.Code.ForbdiddenOperation,
      "User details can only be destroyed by their owner or via master"⟩, [])
  else
    (Except.ok (), [Ev.accessorDestroy])

/-- Claim C3: a non-master caller whose current user is absent or differs from
the target id gets `ForbdiddenOperation` from `update` and `destroy` before
any save/destroy is issued (empty trace); the owner itself, and any
master-privileged caller, proceeds to the accessor. -/
theorem update_destroy_owner_or_master (metadata : Metadata)
    (currentUser : Option UserRec) (keys : List (String × Value)) (id : Nat) :
    (metadata.isMaster = false →
      (∀ u, currentUser = some u → u.id ≠ id) →
      UserController.update metadata currentUser keys id =
        (Except.error ⟨WError.Code.ForbdiddenOperation,
          "User details can only be edited by their owner or via master"⟩, [])
      ∧ UserController.destroy metadata currentUser id =
        (Except.error ⟨WError.Code.ForbdiddenOperation,
          "User details can only be destroyed by their owner or via master"⟩, []))
    ∧ (metadata.isMaster = true →
      UserController.update metadata currentUser keys id =
        (Except.ok keys, [Ev.accessorSave])
      ∧ UserController.destroy metadata currentUser id =
        (Except.ok (), [Ev.accessorDestroy]))
    ∧ (∀ u, currentUser = some u → u.id = id →
      UserController.update metadata currentUser keys id =
        (Except.ok keys, [Ev.accessorSave])
      ∧ UserController.destroy metadata currentUser id =
        (Except.ok (), [Ev.accessorDestroy])) := by
  refine ⟨?_, ?_, ?_⟩
  · intro hm hne
    cases hcu : currentUser with
    | none =>
        constructor <;> simp [UserController.update, UserController.destroy,
          ownerGuardDenies, hm, hcu]
    | some u =>
        have : u.id ≠ id := hne u hcu
        constructor <;> simp [UserController.update, UserController.destroy,
          ownerGuardDenies, hm, hcu, this]
  · intro hm
    constructor <;> simp [UserController.update, UserController.destroy,
      ownerGuardDenies, hm]
  · intro u hcu heq
    constructor <;> simp [UserController.update, UserController.destroy,
      ownerGuardDenies, hcu, heq]

/-- Witness for C3: user 9 (non-master) may not edit or destroy user 7; user 7
may; a master caller with no current user may. -/
theorem update_destroy_owner_or_master_witness :
    (UserController.update ⟨false, "c"⟩ (some ⟨9, "b", "b@x", "pw"⟩) [] 7 =
        (Except.error ⟨WError.Code.ForbdiddenOperation,
          "User details can only be edited by their owner or via master"⟩, [])
      ∧ UserController.destroy ⟨false, "c"⟩ (some ⟨9, "b", "b@x", "pw"⟩) 7 =
        (Except.error ⟨WError.Code.ForbdiddenOperation,
          "User details can only be destroyed by their owner or via master"⟩, []))
    ∧ (UserController.update ⟨false, "c"⟩ (some ⟨7, "a", "a@x", "pw"⟩) [] 7 =
        (Except.ok [], [Ev.accessorSave])
      ∧ UserController.destroy ⟨false, "c"⟩ (some ⟨7, "a", "a@x", "pw"⟩) 7 =
        (Except.ok (), [Ev.accessorDestroy]))
    ∧ (UserController.update ⟨true, "c"⟩ none [] 7 =
        (Except.ok [], [Ev.accessorSave])
      ∧ UserController.destroy ⟨true, "c"⟩ none 7 =
        (Except.ok (), [Ev.accessorDestroy])) := by
  refine ⟨?_, ?_, ?_⟩
  · exact (update_destroy_owner_or_master ⟨false, "c"⟩ (some ⟨9, "b", "b@x", "pw"⟩) [] 7).1
      rfl (by intro u hu; cases hu; decide)
  · exact (update_destroy_owner_or_master ⟨false, "c"⟩ (some ⟨7, "a", "a@x", "pw"⟩) [] 7).2.2
      ⟨7, "a", "a@x", "pw"⟩ rfl rfl
  · exact (update_destroy_owner_or_master ⟨true, "c"⟩ none [] 7).2.1 rfl

/-!  ### The authentication and session collaborators of `logIn`  -/

/-- Whether a user record matches the supplied identifier: its username equals
the supplied `username` or its email equals the supplied `email`. -/
def matchesIdentifier (username email : Option String) (u : UserRec) : Bool :=
  username == some u.username || email == some u.email

/-- Modelled from the spec: `api.authenticate` (not under `src/`) looks up
exactly one identity whose username or email matches the identifier and
checks the password; it yields no user when the identifier matches nothing or
when the password check fails. -/
def authenticate (db : List UserRec) (username email : Option String)
    (password : String) : Option UserRec :=
  match db.find? (matchesIdentifier username email) with
  | none => none
  | some u => if u.password = password then some u else none

/-- Modelled from the spec: the session class key names
(`sessionClass.userKey`, `originKey`, `sessionTokenKey`, `revokedAtKey`) live
in the session model class, which is not under `src/`; the spec names the
four bound keys (user pointer, origin, session token, revocation
timestamp). -/
def Session.userKey : String := "user"

def Session.originKey : String := "origin"

def Session.sessionTokenKey : String := "session_token"

def Session.revokedAtKey : String := "revoked_at"

/-- A session record: the key/value bag the session model is constructed
from (`new sessionClass({ metadata, keys })`). -/
structure SessionRec where
  keys : List (String × Value)
deriving Repr, DecidableEq

/-!  ### `UserController.logIn` and `UserController.create`  -/

/-- Embedding of `UserController.logIn` (`src/controllers/function.ts`):
rejects an already-authenticated caller with `ForbdiddenOperation` before
anything else; authenticates; throws `InvalidCredentials` when no user comes
back; otherwise builds the session keys (user pointer, origin, fresh token,
revocation date), persists the new session and returns it.  `createToken`
models `api.createSessionToken` and `revocationDate` models
`api.getRevocationDate` (neither is under `src/`).  Result: the controller
result, the session store after the call, and the trace of steps issued. -/
def UserController.logIn (createToken : UserRec → String) (revocationDate : Int)
    (db : List UserRec) (metadata : Metadata) (currentUser : Option UserRec)
    (username email : Option String) (password : String)
    (store : List SessionRec) :
    Except WError SessionRec × List SessionRec × List Ev :=
  match currentUser with
  | some _ =>
      (Except.error ⟨WError.Code.ForbdiddenOperation,
        "Cannot log in using an active session. Please log out."⟩, store, [])
  | none =>
      match authenticate db username email password with
      | none =>
          (Except.error ⟨WError.Code.InvalidCredentials,
            "Invalid username/password"⟩, store, [Ev.authenticateEv])
      | some user =>
          let keys : List (String × Value) :=
            [(Session.userKey, Value.ptrJson user.toPointer),
             (Session.originKey, Value.str metadata.client),
             (Session.sessionTokenKey, Value.str (createToken user)),
             (Session.revokedAtKey, Value.num revocationDate)]
          let session : SessionRec := ⟨keys⟩
          (Except.ok session, store ++ [session],
            [Ev.authenticateEv, Ev.accessorSave])

/-- Embedding of `UserController.create` (`src/controllers/function.ts`):
rejects an already-authenticated caller with `ForbdiddenOperation` before any
save; otherwise builds the user model from the keys and saves it.  Result:
the controller result, the user store after the call, and the trace of steps
issued. -/
def UserController.create (currentUser : Option UserRec)
    (keys : List (String × Value)) (userStore : List (List (String × Value))) :
    Except WError (List (String × Value)) × List (List (String × Value)) × List Ev :=
  match currentUser with
  | some _ =>
      (Except.error ⟨WError.Code.ForbdiddenOperation,
        "Users cannot be created using an active session. Please log out."⟩,
       userStore, [])
  | none => (Except.ok keys, userStore ++ [keys], [Ev.accessorSave])

/-!  ### C2: indistinguishable login failures  -/

/-- Claim C2: a login attempt whose identifier matches no user and a login
attempt whose identifier matches a user but whose password is wrong fail with
the identical `InvalidCredentials` error — same code and same message — so
the two failure runs are indistinguishable to the caller. -/
theorem login_failures_indistinguishable
    (createToken : UserRec → String) (revocationDate : Int)
    (db1 db2 : List UserRec) (metadata1 metadata2 : Metadata)
    (un1 em1 un2 em2 : Option String) (pw1 pw2 : String)
    (store1 store2 : List SessionRec) (u : UserRec)
    (hmiss : db1.find? (matchesIdentifier un1 em1) = none)
    (hfound : db2.find? (matchesIdentifier un2 em2) = some u)
    (hpw : u.password ≠ pw2) :
    (UserController.logIn createToken revocationDate db1 metadata1 none
        un1 em1 pw1 store1).1 =
      Except.error ⟨WError.Code.InvalidCredentials, "Invalid username/password"⟩
    ∧ (UserController.logIn createToken revocationDate db2 metadata2 none
        un2 em2 pw2 store2).1 =
      Except.error ⟨WError.Code.InvalidCredentials, "Invalid username/password"⟩ := by
  constructor
  · simp [UserController.logIn, authenticate, hmiss]
  · simp [UserController.logIn, authenticate, hfound, hpw]

/-- Witness for C2: the identifier `ghost` matches no user in a one-user
store, and `alice` with password `wrong` matches a user whose stored password
is `pw`; both runs fail with the same error. -/
theorem login_failures_indistinguishable_witness :
    (UserController.logIn (fun _ => "t") 0 [⟨1, "alice", "a@x", "pw"⟩] ⟨false, "c"⟩
        none (some "ghost") none "pw" []).1 =
      Except.error ⟨WError.Code.InvalidCredentials, "Invalid username/password"⟩
    ∧ (UserController.logIn (fun _ => "t") 0 [⟨1, "alice", "a@x", "pw"⟩] ⟨false, "c"⟩
        none (some "alice") none "wrong" []).1 =
      Except.error ⟨WError.Code.InvalidCredentials, "Invalid username/password"⟩ :=
  login_failures_indistinguishable (fun _ => "t") 0
    [⟨1, "alice", "a@x", "pw"⟩] [⟨1, "alice", "a@x", "pw"⟩] ⟨false, "c"⟩ ⟨false, "c"⟩
    (some "ghost") none (some "alice") none "pw" "wrong" [] []
    ⟨1, "alice", "a@x", "pw"⟩ (by decide) (by decide) (by decide)

/-!  ### C4: login and user creation are rejected while authenticated  -/

/-- Claim C4: when a current user is already set, both `logIn` and user
`create` fail with `ForbdiddenOperation`, with an empty step trace — so no
authentication, session issuance, or save takes place — and the session and
user stores are returned unchanged. -/
theorem login_create_rejected_while_authenticated
    (createToken : UserRec → String) (revocationDate : Int)
    (db : List UserRec) (metadata : Metadata) (currentUser : Option UserRec)
    (username email : Option String) (password : String)
    (store : List SessionRec) (keys : List (String × Value))
    (userStore : List (List (String × Value))) (u : UserRec)
    (hcu : currentUser = some u) :
    UserController.logIn createToken revocationDate db metadata currentUser
        username email password store =
      (Except.error ⟨WError.Code.ForbdiddenOperation,
        "Cannot log in using an active session. Please log out."⟩, store, [])
    ∧ UserController.create currentUser keys userStore =
      (Except.error ⟨WError.Code.ForbdiddenOperation,
        "Users cannot be created using an active session. Please log out."⟩,
       userStore, []) := by
  subst hcu
  exact ⟨rfl, rfl⟩

/-- Witness for C4: with user 1 already authenticated, login and user
creation both fail with `ForbdiddenOperation`, stores untouched, no steps. -/
theorem login_create_rejected_while_authenticated_witness :
    UserController.logIn (fun _ => "t") 0 [] ⟨false, "c"⟩
        (some ⟨1, "a", "a@x", "pw"⟩) (some "a") none "pw" [] =
      (Except.error ⟨WError.Code.ForbdiddenOperation,
        "Cannot log in using an active session. Please log out."⟩, [], [])
    ∧ UserController.create (some ⟨1, "a", "a@x", "pw"⟩) [] [] =
      (Except.error ⟨WError.Code.ForbdiddenOperation,
        "Users cannot be created using an active session. Please log out."⟩,
       [], []) :=
  login_create_rejected_while_authenticated (fun _ => "t") 0 [] ⟨false, "c"⟩
    (some ⟨1, "a", "a@x", "pw"⟩) (some "a") none "pw" [] [] []
    ⟨1, "a", "a@x", "pw"⟩ rfl

/-!  ### C5: the session persisted by a successful login  -/

/-- Claim C5: a successful login builds a session whose keys bind exactly the
authenticated user's pointer under the session user key, the request's client
identifier under the origin key, the freshly generated token under the
session-token key, and the revocation-policy timestamp under the revoked-at
key; that session is appended to the store, and the persisted session is
exactly what `logIn` returns. -/
theorem login_persists_exact_session
    (createToken : UserRec → String) (revocationDate : Int)
    (db : List UserRec) (metadata : Metadata)
    (username email : Option String) (password : String)
    (store : List SessionRec) (u : UserRec)
    (hauth : authenticate db username email password = some u) :
    UserController.logIn createToken revocationDate db metadata none
        username email password store =
      (Except.ok ⟨[(Session.userKey, Value.ptrJson u.toPointer),
          (Session.originKey, Value.str metadata.client),
          (Session.sessionTokenKey, Value.str (createToken u)),
          (Session.revokedAtKey, Value.num revocationDate)]⟩,
       store ++ [⟨[(Session.userKey, Value.ptrJson u.toPointer),
          (Session.originKey, Value.str metadata.client),
          (Session.sessionTokenKey, Value.str (createToken u)),
          (Session.revokedAtKey, Value.num revocationDate)]⟩],
       [Ev.authenticateEv, Ev.accessorSave]) := by
  simp [UserController.logIn, hauth]

/-- Witness for C5: logging in as `alice` with the right password persists
and returns the session with exactly the four expected bindings. -/
theorem login_persists_exact_session_witness :
    UserController.logIn (fun u => "tok-" ++ u.username) 99
        [⟨1, "alice", "a@x", "pw"⟩] ⟨false, "client-1"⟩ none
        (some "alice") none "pw" [] =
      (Except.ok ⟨[(Session.userKey, Value.ptrJson ⟨"user", 1⟩),
          (Session.originKey, Value.str "client-1"),
          (Session.sessionTokenKey, Value.str "tok-alice"),
          (Session.revokedAtKey, Value.num 99)]⟩,
       [⟨[(Session.userKey, Value.ptrJson ⟨"user", 1⟩),
          (Session.originKey, Value.str "client-1"),
          (Session.sessionTokenKey, Value.str "tok-alice"),
          (Session.revokedAtKey, Value.num 99)]⟩],
       [Ev.authenticateEv, Ev.accessorSave]) :=
  login_persists_exact_session (fun u => "tok-" ++ u.username) 99
    [⟨1, "alice", "a@x", "pw"⟩] ⟨false, "client-1"⟩ (some "alice") none "pw" []
    ⟨1, "alice", "a@x", "pw"⟩ (by decide)

/-!  ### C6: `UserController.logOut` and token resolution  -/

/-- The value a session stores under the session-token key. -/
def SessionRec.tokenVal (s : SessionRec) : Option Value :=
  s.keys.lookup Session.sessionTokenKey

/-- The value a session stores under the revoked-at key. -/
def SessionRec.revokedAtVal (s : SessionRec) : Option Value :=
  s.keys.lookup Session.revokedAtKey

/-- Whether a session carries the given token. -/
def hasToken (token : String) (s : SessionRec) : Bool :=
  s.tokenVal == some (Value.str token)

/-- Modelled from the spec: `sessionClass.getFromToken` (the session model
class is not under `src/`) loads the session matching the token. -/
def getFromToken (store : List SessionRec) (token : String) : Option SessionRec :=
  store.find? (hasToken token)

/-- Whether a session carries the given token and its revocation timestamp is
still in the future relative to `now`. -/
def liveTokenPred (now : Int) (token : String) (s : SessionRec) : Bool :=
  hasToken token s &&
    (match s.revokedAtVal with
     | some (Value.num r) => decide (now < r)
     | _ => false)

/-- Modelled from the spec: `resolveToken` loads the session matching the
token whose revocation timestamp is in the future; it returns no session
(not an error) when absent or past revocation. -/
def resolveToken (store : List SessionRec) (now : Int) (token : String) :
    Option SessionRec :=
  store.find? (liveTokenPred now token)

/-- Embedding of `UserController.logOut` (`src/controllers/function.ts`):
loads the session for the given token, throws `InvalidSessionToken` when none
matches, otherwise destroys that session — deletion from the store — and
returns it.  Result: the controller result and the session store after the
call. -/
def UserController.logOut (store : List SessionRec) (sessionToken : String) :
    Except WError SessionRec × List SessionRec :=
  match getFromToken store sessionToken with
  | none =>
      (Except.error ⟨WError.Code.InvalidSessionToken, "Session does not exist"⟩,
       store)
  | some session => (Except.ok session, store.erase session)

/-- In a list holding at most one element satisfying `p`, erasing the element
that `find?` located leaves no element satisfying `p`. -/
theorem erase_found_leaves_no_match {α : Type} [DecidableEq α] (p : α → Bool) :
    ∀ (l : List α) (s : α), l.countP p ≤ 1 → l.find? p = some s →
      ∀ t ∈ l.erase s, p t = false := by
  intro l
  induction l with
  | nil =>
      intro s _ hf t ht
      simp [List.find?] at hf
  | cons a rest ih =>
      intro s hcount hf t ht
      by_cases hpa : p a = true
      · have hsa : a = s := by
          rw [List.find?_cons_of_pos _ hpa] at hf
          exact Option.some.inj hf
        subst hsa
        rw [List.erase_cons_head] at ht
        have h0 : rest.countP p = 0 := by
          rw [List.countP_cons_of_pos _ _ hpa] at hcount
          omega
        have hnt := List.countP_eq_zero.mp h0 t ht
        simpa using hnt
      · have hpa' : p a = false := by
          simpa using hpa
        rw [List.find?_cons_of_neg _ hpa] at hf
        have hps : p s = true := List.find?_some hf
        have hane : ¬(a == s) := by
          have hne : a ≠ s := by
            intro h
            rw [h, hps] at hpa'
            cases hpa'
          simpa using hne
        rw [List.erase_cons_tail hane] at ht
        have hcount' : rest.countP p ≤ 1 := by
          rw [List.countP_cons_of_neg _ _ hpa] at hcount
          exact hcount
        rcases List.mem_cons.mp ht with h | h
        · rw [h]
          exact hpa'
        · exact ih s hcount' hf t h

/-- Claim C6: `logOut` with a token matching no session fails with
`InvalidSessionToken` and destroys nothing (the store is unchanged); with a
matching session it destroys exactly that session and returns it, and — the
store holding at most one session per token value, the spec's uniqueness
invariant — a subsequent lookup or resolution of the same token value finds
no session. -/
theorem logout_destroys_matching_session (store : List SessionRec)
    (token : String) (now : Int) :
    (getFromToken store token = none →
      UserController.logOut store token =
        (Except.error ⟨WError.Code.InvalidSessionToken, "Session does not exist"⟩,
         store))
    ∧ ∀ s, getFromToken store token = some s →
        UserController.logOut store token = (Except.ok s, store.erase s)
        ∧ (store.countP (hasToken token) ≤ 1 →
            getFromToken (store.erase s) token = none
            ∧ resolveToken (store.erase s) now token = none) := by
  constructor
  · intro h
    simp [UserController.logOut, h]
  · intro s h
    refine ⟨by simp [UserController.logOut, h], ?_⟩
    intro hcount
    have hall : ∀ t ∈ store.erase s, hasToken token t = false :=
      erase_found_leaves_no_match (hasToken token) store s hcount h
    constructor
    · exact List.find?_eq_none.mpr (by
        intro x hx
        simp [hall x hx])
    · exact List.find?_eq_none.mpr (by
        intro x hx
        simp [liveTokenPred, hall x hx])

/-- Witness for C6: in a store holding one session with token `tok`, logging
out an unknown token fails and changes nothing; logging out `tok` removes the
session, after which neither lookup nor resolution finds it. -/
theorem logout_destroys_matching_session_witness :
    UserController.logOut [⟨[(Session.sessionTokenKey, Value.str "tok")]⟩] "nope" =
      (Except.error ⟨WError.Code.InvalidSessionToken, "Session does not exist"⟩,
       [⟨[(Session.sessionTokenKey, Value.str "tok")]⟩])
    ∧ UserController.logOut [⟨[(Session.sessionTokenKey, Value.str "tok")]⟩] "tok" =
      (Except.ok ⟨[(Session.sessionTokenKey, Value.str "tok")]⟩, [])
    ∧ getFromToken [] "tok" = none
    ∧ resolveToken [] 0 "tok" = none := by
  refine ⟨?_, ?_, ?_, ?_⟩
  · exact (logout_destroys_matching_session
      [⟨[(Session.sessionTokenKey, Value.str "tok")]⟩] "nope" 0).1 (by decide)
  · exact ((logout_destroys_matching_session
      [⟨[(Session.sessionTokenKey, Value.str "tok")]⟩] "tok" 0).2
      ⟨[(Session.sessionTokenKey, Value.str "tok")]⟩ (by decide)).1
  · exact ((logout_destroys_matching_session
      [⟨[(Session.sessionTokenKey, Value.str "tok")]⟩] "tok" 0).2
      ⟨[(Session.sessionTokenKey, Value.str "tok")]⟩ (by decide)).2 (by decide) |>.1
  · exact ((logout_destroys_matching_session
      [⟨[(Session.sessionTokenKey, Value.str "tok")]⟩] "tok" 0).2
      ⟨[(Session.sessionTokenKey, Value.str "tok")]⟩ (by decide)).2 (by decide) |>.2

/-!  ### C8: `find` query assembly and skip/limit defaults  -/

/-- Modelled from the spec: the `Defaults.Query` constants
(`src/utils/constants`) are not under `src/`; the spec fixes the default skip
at 0, the default limit at a fixed positive system constant (taken here as
100), and the default sort as ascending creation order. -/
def Defaults.Query.Skip : Int := 0

def Defaults.Query.Limit : Int := 100

def Defaults.Query.Sort : List String := ["created_at"]

/-- JavaScript `x || d` on an optional number: absence and `0` are falsy. -/
def jsOrInt (v : Option Int) (d : Int) : Int :=
  match v with
  | none => d
  | some x => if x = 0 then d else x

/-- The query descriptor assembled by `find` in `src/routes/classes.js` and
by `UserController.find` in `src/controllers/function.ts` (both build it the
same way). -/
structure AssembledQuery where
  select : Option (List String)
  includeRels : Option (List String)
  whereC : List (String × Value)
  sort : List String
  skip : Int
  limit : Int
deriving Repr, DecidableEq

/-- Embedding of the query preparation shared by `find`
(`src/routes/classes.js`) and `UserController.find`: `select` and `include`
pass through, `where` goes through the `ConstraintMap` constructor (its
parser is not under `src/`; the pass-through keeps the raw mapping), and
`sort`, `skip` and `limit` are defaulted with JavaScript `||` — an empty
array is truthy, a numeric `0` is falsy. -/
def assembleFindQuery (select includeRels : Option (List String))
    (whereRaw : List (String × Value)) (sort : Option (List String))
    (skip limit : Option Int) : AssembledQuery :=
  { select := select
    includeRels := includeRels
    whereC := whereRaw
    sort := sort.getD Defaults.Query.Sort
    skip := jsOrInt skip Defaults.Query.Skip
    limit := jsOrInt limit Defaults.Query.Limit }

/-- Counterexample to C8: a request that supplies `limit = 0` does not get
`limit = 0` in the assembled query — the JavaScript `||` treats the supplied
`0` as absent and substitutes the default — so the limit field does not
always equal the caller-supplied value. -/
theorem find_defaults_counterexample :
    (assembleFindQuery none none [] none none (some 0)).limit =
      Defaults.Query.Limit
    ∧ (assembleFindQuery none none [] none none (some 0)).limit ≠ 0 := by
  constructor
  · rfl
  · decide

/-- Claim C8 (amended): the skip field equals the caller-supplied value when
supplied and 0 when omitted (a supplied 0 coincides with the default 0); the
limit field equals the caller-supplied value when that value is nonzero, and
the default when the parameter is omitted or supplied as 0; in particular an
empty request yields skip 0 and the default limit, and a request supplying
only skip 5 yields skip 5 and the default limit. -/
theorem find_defaults_apply_when_falsy (select includeRels : Option (List String))
    (whereRaw : List (String × Value)) (sort : Option (List String))
    (skip limit : Option Int) :
    (skip = none →
      (assembleFindQuery select includeRels whereRaw sort skip limit).skip = 0)
    ∧ (∀ v : Int, skip = some v →
      (assembleFindQuery select includeRels whereRaw sort skip limit).skip = v)
    ∧ (limit = none →
      (assembleFindQuery select includeRels whereRaw sort skip limit).limit =
        Defaults.Query.Limit)
    ∧ (∀ v : Int, limit = some v → v ≠ 0 →
      (assembleFindQuery select includeRels whereRaw sort skip limit).limit = v)
    ∧ (limit = some 0 →
      (assembleFindQuery select includeRels whereRaw sort skip limit).limit =
        Defaults.Query.Limit) := by
  refine ⟨?_, ?_, ?_, ?_, ?_⟩
  · intro h
    simp [assembleFindQuery, jsOrInt, h, Defaults.Query.Skip]
  · intro v h
    by_cases hv : v = 0
    · simp [assembleFindQuery, jsOrInt, h, hv, Defaults.Query.Skip]
    · simp [assembleFindQuery, jsOrInt, h, hv]
  · intro h
    simp [assembleFindQuery, jsOrInt, h]
  · intro v h hv
    simp [assembleFindQuery, jsOrInt, h, hv]
  · intro h
    simp [assembleFindQuery, jsOrInt, h]

/-- Witness for the amended C8: `{}` yields skip 0 and limit 100, and
`{skip: 5}` yields skip 5 and limit 100. -/
theorem find_defaults_apply_when_falsy_witness :
    (assembleFindQuery none none [] none none none).skip = 0
    ∧ (assembleFindQuery none none [] none none none).limit = Defaults.Query.Limit
    ∧ (assembleFindQuery none none [] none (some 5) none).skip = 5
    ∧ (assembleFindQuery none none [] none (some 5) none).limit = Defaults.Query.Limit := by
  refine ⟨?_, ?_, ?_, ?_⟩
  · exact (find_defaults_apply_when_falsy none none [] none none none).1 rfl
  · exact (find_defaults_apply_when_falsy none none [] none none none).2.2.1 rfl
  · exact (find_defaults_apply_when_falsy none none [] none (some 5) none).2.1 5 rfl
  · exact (find_defaults_apply_when_falsy none none [] none (some 5) none).2.2.1 rfl

/-!  ### C1: authorization resolves before any class write  -/

/-- The verdict of the AuthorizationGuard for one operation: allow, or deny
with the error to surface. -/
inductive Decision where
  | allow : Decision
  | deny : WError → Decision
deriving Repr, DecidableEq

/-- Modelled from the spec: the model classes instantiated by the class
routes (`new modelClass(...)` followed by `save`/`destroy` in
`src/routes/classes.js`) are not under `src/`; per the spec the guard is
consulted before any mutating operation reaches the accessor and its deny
short-circuits, so a save first records the guard evaluation and issues the
accessor write only on allow. -/
def guardedSave (d : Decision) : Except WError Unit × List Ev :=
  match d with
  | Decision.allow => (Except.ok (), [Ev.authEval true, Ev.accessorSave])
  | Decision.deny e => (Except.error e, [Ev.authEval false])

/-- Modelled from the spec: like `guardedSave`, for the accessor's
destroy. -/
def guardedDestroy (d : Decision) : Except WError Unit × List Ev :=
  match d with
  | Decision.allow => (Except.ok (), [Ev.authEval true, Ev.accessorDestroy])
  | Decision.deny e => (Except.error e, [Ev.authEval false])

/-- Embedding of `create` in `src/routes/classes.js`: builds the model from
the keys and saves it through the guarded model class; the guard verdict `d`
for this actor/class is a parameter.  Result: the route result and the trace
of steps. -/
def classesCreate (d : Decision) (className : String)
    (keys : List (String × Value)) :
    Except WError (List (String × Value)) × List Ev :=
  match guardedSave d with
  | (Except.ok _, tr) => (Except.ok keys, tr)
  | (Except.error e, tr) => (Except.error e, tr)

/-- Embedding of `update` in `src/routes/classes.js`: builds the model from
the keys and id and saves it through the guarded model class. -/
def classesUpdate (d : Decision) (className : String)
    (keys : List (String × Value)) (id : Nat) :
    Except WError (List (String × Value)) × List Ev :=
  match guardedSave d with
  | (Except.ok _, tr) => (Except.ok keys, tr)
  | (Except.error e, tr) => (Except.error e, tr)

/-- Embedding of `destroy` in `src/routes/classes.js`: builds the model from
the id and destroys it through the guarded model class. -/
def classesDestroy (d : Decision) (className : String) (id : Nat) :
    Except WError Unit × List Ev :=
  match guardedDestroy d with
  | (Except.ok _, tr) => (Except.ok (), tr)
  | (Except.error e, tr) => (Except.error e, tr)

/-- Whether a trace step is an accessor write (save or destroy). -/
def Ev.isWrite : Ev → Bool
  | Ev.accessorSave => true
  | Ev.accessorDestroy => true
  | _ => false

/-- Claim C1: for each write operation of the class routes, any accessor
write in the trace happens with the guard resolved to allow, and the trace
then is exactly the allow evaluation followed by the write — the
authorization is fully evaluated, to allow, before the write; a deny
short-circuits: the operation returns the deny error and its trace holds no
write at all. -/
theorem class_writes_authorized_first (d : Decision) (className : String)
    (keys : List (String × Value)) (id : Nat) :
    ((∃ ev ∈ (classesCreate d className keys).2, ev.isWrite) →
      d = Decision.allow
      ∧ (classesCreate d className keys).2 = [Ev.authEval true, Ev.accessorSave])
    ∧ ((∃ ev ∈ (classesUpdate d className keys id).2, ev.isWrite) →
      d = Decision.allow
      ∧ (classesUpdate d className keys id).2 = [Ev.authEval true, Ev.accessorSave])
    ∧ ((∃ ev ∈ (classesDestroy d className id).2, ev.isWrite) →
      d = Decision.allow
      ∧ (classesDestroy d className id).2 = [Ev.authEval true, Ev.accessorDestroy])
    ∧ ∀ e, d = Decision.deny e →
        classesCreate d className keys = (Except.error e, [Ev.authEval false])
        ∧ classesUpdate d className keys id = (Except.error e, [Ev.authEval false])
        ∧ classesDestroy d className id = (Except.error e, [Ev.authEval false]) := by
  cases d with
  | allow =>
      refine ⟨fun _ => ⟨rfl, rfl⟩, fun _ => ⟨rfl, rfl⟩, fun _ => ⟨rfl, rfl⟩, ?_⟩
      intro e he
      cases he
  | deny e0 =>
      refine ⟨?_, ?_, ?_, ?_⟩
      · intro h
        exact absurd h (by simp [classesCreate, guardedSave, Ev.isWrite])
      · intro h
        exact absurd h (by simp [classesUpdate, guardedSave, Ev.isWrite])
      · intro h
        exact absurd h (by simp [classesDestroy, guardedDestroy, Ev.isWrite])
      · intro e he
        cases he
        exact ⟨rfl, ⟨rfl, rfl⟩⟩

/-- Witness for C1: an allowed create on class `post` writes after the allow
evaluation; a denied destroy on class `post` returns the deny error with no
write in its trace. -/
theorem class_writes_authorized_first_witness :
    ((classesCreate Decision.allow "post" []).2 = [Ev.authEval true, Ev.accessorSave])
    ∧ classesDestroy (Decision.deny ⟨WError.Code.ForbdiddenOperation, "denied"⟩)
        "post" 7 =
      (Except.error ⟨WError.Code.ForbdiddenOperation, "denied"⟩, [Ev.authEval false]) := by
  constructor
  · exact ((class_writes_authorized_first Decision.allow "post" [] 7).1
      ⟨Ev.accessorSave, by decide⟩).2
  · exact ((class_writes_authorized_first
      (Decision.deny ⟨WError.Code.ForbdiddenOperation, "denied"⟩) "post" [] 7).2.2.2
      ⟨WError.Code.ForbdiddenOperation, "denied"⟩ rfl).2.2
